import Mathlib

/-!
Shallow embedding of `src/server.js` of the Movie-Tracker-Backend
repository: a minimal Express bootstrap that enables CORS and JSON body
parsing, registers the single route `GET /`, fires an asynchronous
database authentication check, and listens on `process.env.PORT || 5001`.

The behaviors of the external collaborators (the `cors` and
`express.json` middleware, the JSON grammar of `JSON.parse`, and the
Node event loop / bind-failure semantics) are modelled from the spec's
description of those collaborators; everything else (the route table,
the handler, the log lines, the port computation, the program order of
the bootstrap steps) is transcribed from `server.js`.
-/

/-- A JSON value, the structured in-memory representation the JSON
body-parsing middleware produces.  Numbers keep their source text. -/
inductive JsonVal where
  | null
  | bool (b : Bool)
  | num (lit : String)
  | str (s : String)
  | arr (elems : List JsonVal)
  | obj (members : List (String × JsonVal))

/-- JSON insignificant whitespace. -/
def isWs (c : Char) : Bool :=
  c == ' ' || c == '\t' || c == '\n' || c == '\r'

/-- Drop leading JSON whitespace. -/
def skipWs : List Char → List Char
  | [] => []
  | c :: cs => if isWs c then skipWs cs else c :: cs

/-- Whether a character is a hexadecimal digit. -/
def isHex (c : Char) : Bool :=
  c.isDigit || ('a' ≤ c && c ≤ 'f') || ('A' ≤ c && c ≤ 'F')

/-- Parse the remainder of a JSON string literal (the opening quote
already consumed): content characters and the input after the closing
quote, or `none` on a malformed literal.  Escapes are validated; the
content returned for an escape is the escape letter itself, which is
enough for the claims (no handler ever reads a parsed body). -/
def strChars : List Char → Option (List Char × List Char)
  | [] => none
  | '"' :: cs => some ([], cs)
  | '\\' :: 'u' :: a :: b :: c :: d :: cs =>
    if isHex a && isHex b && isHex c && isHex d then
      match strChars cs with
      | some (content, rest) => some ('u' :: content, rest)
      | none => none
    else none
  | '\\' :: e :: cs =>
    if e == '"' || e == '\\' || e == '/' || e == 'b' || e == 'f' ||
        e == 'n' || e == 'r' || e == 't' then
      match strChars cs with
      | some (content, rest) => some (e :: content, rest)
      | none => none
    else none
  | c :: cs =>
    if c.toNat < 32 then none
    else
      match strChars cs with
      | some (content, rest) => some (c :: content, rest)
      | none => none

/-- Split off a maximal run of decimal digits. -/
def takeDigits : List Char → List Char × List Char
  | [] => ([], [])
  | c :: cs =>
    if c.isDigit then
      let (d, r) := takeDigits cs
      (c :: d, r)
    else ([], c :: cs)

/-- Parse the optional fraction and exponent parts of a JSON number. -/
def fracExp (cs : List Char) : Option (List Char × List Char) :=
  let fr : Option (List Char × List Char) :=
    match cs with
    | '.' :: r =>
      let (d, r2) := takeDigits r
      if d.isEmpty then none else some ('.' :: d, r2)
    | _ => some ([], cs)
  match fr with
  | none => none
  | some (f, cs2) =>
    match cs2 with
    | e :: r =>
      if e == 'e' || e == 'E' then
        let (sgn, r2) : List Char × List Char :=
          match r with
          | '+' :: t => (['+'], t)
          | '-' :: t => (['-'], t)
          | _ => ([], r)
        let (d, r3) := takeDigits r2
        if d.isEmpty then none else some (f ++ e :: sgn ++ d, r3)
      else some (f, cs2)
    | [] => some (f, [])

/-- Parse a JSON number literal: optional minus, integer part with no
leading zero, optional fraction and exponent. -/
def numLit (cs : List Char) : Option (List Char × List Char) :=
  let (neg, cs1) : List Char × List Char :=
    match cs with
    | '-' :: r => (['-'], r)
    | _ => ([], cs)
  match cs1 with
  | '0' :: r =>
    match fracExp r with
    | some (fe, rest) => some (neg ++ '0' :: fe, rest)
    | none => none
  | c :: r =>
    if c.isDigit then
      let (d, r2) := takeDigits r
      match fracExp r2 with
      | some (fe, rest) => some (neg ++ c :: d ++ fe, rest)
      | none => none
    else none
  | [] => none

mutual
/-- Modelled from the spec: the JSON grammar accepted by the body parser
(`JSON.parse`, external collaborator).  Fuel-indexed recursive descent:
parse one JSON value and return it with the remaining input. -/
def parseVal : Nat → List Char → Option (JsonVal × List Char)
  | 0, _ => none
  | fuel + 1, cs =>
    match skipWs cs with
    | 'n' :: 'u' :: 'l' :: 'l' :: r => some (.null, r)
    | 't' :: 'r' :: 'u' :: 'e' :: r => some (.bool true, r)
    | 'f' :: 'a' :: 'l' :: 's' :: 'e' :: r => some (.bool false, r)
    | '"' :: r =>
      match strChars r with
      | some (content, rest) => some (.str (String.mk content), rest)
      | none => none
    | '[' :: r =>
      match skipWs r with
      | ']' :: r2 => some (.arr [], r2)
      | r2 =>
        match parseElems fuel r2 with
        | some (vs, r3) =>
          match skipWs r3 with
          | ']' :: r4 => some (.arr vs, r4)
          | _ => none
        | none => none
    | '{' :: r =>
      match skipWs r with
      | '}' :: r2 => some (.obj [], r2)
      | r2 =>
        match parseMembers fuel r2 with
        | some (ms, r3) =>
          match skipWs r3 with
          | '}' :: r4 => some (.obj ms, r4)
          | _ => none
        | none => none
    | cs2 =>
      match numLit cs2 with
      | some (d, rest) => some (.num (String.mk d), rest)
      | none => none

/-- Comma-separated JSON array elements (at least one). -/
def parseElems : Nat → List Char → Option (List JsonVal × List Char)
  | 0, _ => none
  | fuel + 1, cs =>
    match parseVal fuel cs with
    | none => none
    | some (v, r) =>
      match skipWs r with
      | ',' :: r2 =>
        match parseElems fuel r2 with
        | some (vs, r3) => some (v :: vs, r3)
        | none => none
      | r2 => some ([v], r2)

/-- Comma-separated JSON object members (at least one). -/
def parseMembers : Nat → List Char → Option (List (String × JsonVal) × List Char)
  | 0, _ => none
  | fuel + 1, cs =>
    match skipWs cs with
    | '"' :: r =>
      match strChars r with
      | none => none
      | some (key, r2) =>
        match skipWs r2 with
        | ':' :: r3 =>
          match parseVal fuel r3 with
          | none => none
          | some (v, r4) =>
            match skipWs r4 with
            | ',' :: r5 =>
              match parseMembers fuel r5 with
              | some (ms, r6) => some ((String.mk key, v) :: ms, r6)
              | none => none
            | r5 => some ([(String.mk key, v)], r5)
        | _ => none
    | _ => none
end

/-- Modelled from the spec: parse a whole JSON document; `none` exactly
when the body is syntactically invalid JSON. -/
def jsonParse (s : String) : Option JsonVal :=
  match parseVal (s.length + 2) s.toList with
  | some (v, rest) => if (skipWs rest).isEmpty then some v else none
  | none => none

/-- An HTTP request: method, path, header list, raw body, and the
slot the JSON middleware fills with the parsed body (`req.body`). -/
structure Request where
  method : String
  path : String
  headers : List (String × String)
  body : String
  parsedBody : Option JsonVal := none

/-- An HTTP response: status code, header list, body. -/
structure Response where
  status : Nat
  headers : List (String × String)
  body : String
deriving DecidableEq

/-- A registered route: method, path, handler. -/
structure Route where
  method : String
  path : String
  handler : Request → Response

/-- The handler of line 11 of `server.js`:
`(req, res) => res.send("Movie Tracker API is running...")`. -/
def rootHandler : Request → Response :=
  fun _ => { status := 200, headers := [], body := "Movie Tracker API is running..." }

/-- The route table built by `server.js`: exactly one route, `GET /`. -/
def routes : List Route :=
  [{ method := "GET", path := "/", handler := rootHandler }]

/-- Express route dispatch: the first route whose method and path match
handles the request; `none` when no registered route matches. -/
def dispatch (rs : List Route) (req : Request) : Option Response :=
  match rs.find? (fun r => r.method == req.method && r.path == req.path) with
  | some r => some (r.handler req)
  | none => none

/-- Express's default not-found handling for a request no route matched. -/
def notFound (req : Request) : Response :=
  { status := 404, headers := [], body := "Cannot " ++ req.method ++ " " ++ req.path }

/-- Modelled from the spec: the permissive `cors()` middleware (external
collaborator) adds a wildcard cross-origin-allow header to every
response. -/
def addCors (resp : Response) : Response :=
  { resp with headers := ("Access-Control-Allow-Origin", "*") :: resp.headers }

/-- A cross-origin-allow header value `v` permits origin `o` when it is
the wildcard or names that origin. -/
def permitsOrigin (resp : Response) (origin : String) : Prop :=
  ∃ v, ("Access-Control-Allow-Origin", v) ∈ resp.headers ∧ (v = "*" ∨ v = origin)

/-- Characters of a header value before the first parameter separator. -/
def untilSemi : List Char → List Char
  | [] => []
  | c :: cs => if c == ';' then [] else c :: untilSemi cs

/-- Lowercase a character list. -/
def lowerChars (cs : List Char) : List Char :=
  cs.map Char.toLower

/-- Strip leading and trailing whitespace from a character list. -/
def trimChars (cs : List Char) : List Char :=
  ((cs.dropWhile isWs).reverse.dropWhile isWs).reverse

/-- Whether a content-type header value denotes JSON (parameters after a
semicolon ignored, case-insensitive). -/
def valueIsJson (v : String) : Bool :=
  lowerChars (trimChars (untilSemi v.toList)) == "application/json".toList

/-- Whether the request carries a JSON content type (header names are
case-insensitive). -/
def hasJsonContentType (req : Request) : Bool :=
  req.headers.any (fun p => lowerChars p.1.toList == "content-type".toList && valueIsJson p.2)

/-- Outcome of a middleware step: pass the (possibly enriched) request
on, or short-circuit with a response. -/
inductive MwStep where
  | next (req : Request)
  | halt (resp : Response)

/-- Modelled from the spec: the client-error response the body-parsing
middleware produces for a malformed JSON body. -/
def badJsonResponse : Response :=
  { status := 400, headers := [], body := "Bad Request" }

/-- Modelled from the spec: the `express.json()` middleware (external
collaborator).  A request with a JSON content type has its body parsed
into `req.body`; a malformed JSON body is rejected with a client error;
other requests pass through unchanged. -/
def jsonMw (req : Request) : MwStep :=
  if hasJsonContentType req then
    match jsonParse req.body with
    | some v => .next { req with parsedBody := some v }
    | none => .halt badJsonResponse
  else .next req

/-- The whole request pipeline of the app built by `server.js`:
`cors()` first (adds the wildcard header to every response), then
`express.json()`, then route dispatch, then the framework's default
not-found handling. -/
def appHandle (req : Request) : Response :=
  match jsonMw req with
  | .halt resp => addCors resp
  | .next req2 =>
    addCors
      (match dispatch routes req2 with
       | some resp => resp
       | none => notFound req2)

/-- A JavaScript port value: `process.env.PORT || 5001` is either the
environment string (truthy case) or the numeric literal `5001`. -/
inductive JsPort where
  | str (s : String)
  | num (n : Nat)
deriving DecidableEq

/-- Render a port value the way the template literal
`Server running on port ${PORT}` does. -/
def portString : JsPort → String
  | .str s => s
  | .num n => toString n

/-- Line 18 of `server.js`: `const PORT = process.env.PORT || 5001`.
`process.env` values are strings; `undefined` and the empty string are
falsy, every other string is truthy. -/
def PORT (env : String → Option String) : JsPort :=
  match env "PORT" with
  | some s => if s = "" then .num 5001 else .str s
  | none => .num 5001

/-- The top-level statements of `server.js` in program order. -/
inductive Instr where
  | loadEnvConfig
  | createApp
  | useCorsMw
  | useJsonMw
  | registerGetRoute
  | callDbAuthenticate
  | computePort
  | callListen
  | registerErrorHandler
deriving DecidableEq, BEq

/-- The bootstrap sequence of `server.js`, one entry per top-level
statement, in source order.  No error handler is ever registered. -/
def serverProgram : List Instr :=
  [.loadEnvConfig, .createApp, .useCorsMw, .useJsonMw, .registerGetRoute,
   .callDbAuthenticate, .computePort, .callListen]

/-- Outcome of the asynchronous `sequelize.authenticate()` call. -/
inductive DbOutcome where
  | ok
  | err (msg : String)

/-- The log line `server.js` emits when the database outcome resolves:
`"Database connected..."` on success, `"Error: " + err` on failure. -/
def dbLogLine : DbOutcome → String
  | .ok => "Database connected..."
  | .err m => "Error: " ++ m

/-- Process state after the synchronous part of the bootstrap ran:
the computed port, whether the listener is bound (and to what), whether
the database check is still pending, whether the process terminated on
a fatal error, and the emitted log, oldest first. -/
structure ProcState where
  port : JsPort
  listening : Option JsPort
  dbPending : Bool
  terminated : Bool
  log : List String
deriving DecidableEq

/-- State right after the synchronous bootstrap of `server.js`: the
database check has been initiated (pending), nothing is bound yet,
nothing has been logged by the pieces we track. -/
def initState (env : String → Option String) : ProcState :=
  { port := PORT env
    listening := none
    dbPending := true
    terminated := false
    log := [] }

/-- Asynchronous completions delivered by the event loop after the
synchronous bootstrap: the bind outcome of `app.listen`, the resolution
of the database check, and incoming HTTP requests. -/
inductive Event where
  | bindResult (ok : Bool)
  | dbResult (o : DbOutcome)
  | request (req : Request)

/-- Modelled from the spec: one event-loop step.  A resolved database
check only runs its logging callback; a successful bind logs the port
and starts accepting; a failed bind is an error no handler catches, so
the process terminates; a request is answered by the app pipeline once
the listener is bound.  A terminated process reacts to nothing. -/
def step (s : ProcState) (e : Event) : ProcState × Option Response :=
  if s.terminated then (s, none)
  else
    match e with
    | .dbResult o =>
      if s.dbPending then
        ({ s with dbPending := false, log := s.log ++ [dbLogLine o] }, none)
      else (s, none)
    | .bindResult ok =>
      if ok then
        ({ s with listening := some s.port
                  log := s.log ++ ["Server running on port " ++ portString s.port] },
         none)
      else ({ s with terminated := true }, none)
    | .request req =>
      match s.listening with
      | some _ => (s, some (appHandle req))
      | none => (s, none)

/-- Run a list of events, collecting the responses produced. -/
def runTrace (s : ProcState) : List Event → ProcState × List Response
  | [] => (s, [])
  | e :: es =>
    let (s1, r) := step s e
    let (s2, rs) := runTrace s1 es
    (s2, (r.map ([·])).getD [] ++ rs)

/-- An environment with no variables set. -/
def envEmpty : String → Option String := fun _ => none

/-- An environment with PORT set to 8080. -/
def env8080 : String → Option String :=
  fun k => if k = "PORT" then some ("8080") else none

/-- An environment with PORT set to the empty string. -/
def envPortEmpty : String → Option String :=
  fun k => if k = "PORT" then some ("") else none

/-- A plain GET / request with no headers and an empty body. -/
def getRootReq : Request :=
  { method := "GET", path := "/", headers := [], body := "" }

/-- A GET / request declaring a JSON content type whose body is
syntactically invalid JSON. -/
def badJsonGetReq : Request :=
  { method := "GET"
    path := "/"
    headers := [("Content-Type", "application/json")]
    body := "[1," }

/-- A GET / request declaring a JSON content type with a well-formed
JSON body. -/
def validJsonGetReq : Request :=
  { method := "GET"
    path := "/"
    headers := [("Content-Type", "application/json")]
    body := "[1, 2]" }

/-- A request matching no registered route. -/
def otherReq : Request :=
  { method := "POST", path := "/movies", headers := [], body := "" }

/-- A request matching no registered route that declares a JSON content
type and carries a syntactically invalid JSON body. -/
def badJsonOtherReq : Request :=
  { method := "POST"
    path := "/movies"
    headers := [("Content-Type", "application/json")]
    body := "[1," }

/-- The response the app gives to GET /: status 200, the wildcard
cross-origin header, and the fixed payload. -/
def rootResp : Response :=
  { status := 200
    headers := [("Access-Control-Allow-Origin", "*")]
    body := "Movie Tracker API is running..." }

/-- A process state that has terminated on a fatal error. -/
def deadState : ProcState :=
  { port := .num 5001, listening := none, dbPending := true, terminated := true, log := [] }

lemma step_request_fst (s : ProcState) (req : Request) :
    (step s (.request req)).1 = s := by
  unfold step
  by_cases ht : s.terminated
  · simp [ht]
  · simp [ht]
    cases hl : s.listening <;> simp

lemma dispatch_root (req : Request) (hm : req.method = "GET") (hp : req.path = "/") :
    dispatch routes req = some (rootHandler req) := by
  simp [dispatch, routes, List.find?, hm, hp]

lemma dispatch_other (req : Request) (h : req.method ≠ "GET" ∨ req.path ≠ "/") :
    dispatch routes req = none := by
  rcases h with h | h
  · have h1 : ("GET" == req.method) = false := beq_eq_false_iff_ne.mpr (Ne.symm h)
    simp [dispatch, routes, List.find?, h1]
  · have h1 : ("/" == req.path) = false := beq_eq_false_iff_ne.mpr (Ne.symm h)
    simp [dispatch, routes, List.find?, h1]

lemma appHandle_root (req : Request) (hm : req.method = "GET") (hp : req.path = "/")
    (hok : hasJsonContentType req = false ∨ ∃ v, jsonParse req.body = some v) :
    appHandle req = rootResp := by
  rcases hok with hct | ⟨v, hv⟩
  · simp [appHandle, jsonMw, hct, dispatch_root req hm hp, rootResp, addCors, rootHandler]
  · by_cases hct : hasJsonContentType req
    · simp only [appHandle, jsonMw, hct, if_true, hv]
      rw [dispatch_root { req with parsedBody := some v } hm hp]
      simp [rootResp, addCors, rootHandler]
    · simp [appHandle, jsonMw, hct, dispatch_root req hm hp, rootResp, addCors, rootHandler]

lemma appHandle_fallthrough (req : Request) (h : req.method ≠ "GET" ∨ req.path ≠ "/")
    (hok : hasJsonContentType req = false ∨ ∃ v, jsonParse req.body = some v) :
    appHandle req = addCors (notFound req) := by
  rcases hok with hct | ⟨v, hv⟩
  · simp [appHandle, jsonMw, hct, dispatch_other req h]
  · by_cases hct : hasJsonContentType req
    · simp only [appHandle, jsonMw, hct, if_true, hv]
      rw [dispatch_other { req with parsedBody := some v } h]
      simp [notFound]
    · simp [appHandle, jsonMw, hct, dispatch_other req h]

/-- Claim C1, counterexample: a GET / request carrying a JSON content
type and a syntactically invalid JSON body does not get status 200 with
the fixed payload — the body-parsing middleware rejects it first. -/
theorem getRoot_not_always_200 :
    ¬((appHandle badJsonGetReq).status = 200 ∧
      (appHandle badJsonGetReq).body = "Movie Tracker API is running...") := by
  decide

/-- Claim C1, amended: every GET / request that the JSON body-parsing
middleware does not reject (no JSON content type, or a well-formed JSON
body) gets status 200 and body exactly the fixed payload. -/
theorem getRoot_ok (req : Request) (hm : req.method = "GET") (hp : req.path = "/")
    (hok : hasJsonContentType req = false ∨ ∃ v, jsonParse req.body = some v) :
    (appHandle req).status = 200 ∧ (appHandle req).body = "Movie Tracker API is running..." := by
  rw [appHandle_root req hm hp hok]
  exact ⟨rfl, rfl⟩

/-- Witness for the amended claim C1 at a concrete GET / request. -/
theorem getRoot_ok_witness :
    (appHandle getRootReq).status = 200 ∧
    (appHandle getRootReq).body = "Movie Tracker API is running..." :=
  getRoot_ok getRootReq rfl rfl (Or.inl rfl)

/-- Claim C2: the listening port equals the PORT environment variable
when present and non-empty, and 5001 when PORT is unset or empty; on a
successful bind the listener is bound to exactly that port. -/
theorem port_selection :
    (∀ (env : String → Option String) (s : String),
      env ("PORT") = some s → s ≠ "" → PORT env = JsPort.str s) ∧
    (∀ env : String → Option String, env ("PORT") = some ("") → PORT env = JsPort.num 5001) ∧
    (∀ env : String → Option String, env ("PORT") = none → PORT env = JsPort.num 5001) ∧
    (∀ env : String → Option String,
      (runTrace (initState env) [.bindResult true]).1.listening = some (PORT env)) := by
  refine ⟨?_, ?_, ?_, ?_⟩
  · intro env s h hs
    simp [PORT, h, hs]
  · intro env h
    simp [PORT, h]
  · intro env h
    simp [PORT, h]
  · intro env
    rfl

/-- Witness for claim C2 at concrete environments. -/
theorem port_selection_witness :
    PORT env8080 = JsPort.str ("8080") ∧
    PORT envPortEmpty = JsPort.num 5001 ∧
    PORT envEmpty = JsPort.num 5001 :=
  ⟨port_selection.1 env8080 ("8080") rfl (by decide),
   port_selection.2.1 envPortEmpty rfl,
   port_selection.2.2.1 envEmpty rfl⟩

/-- Claim C3: whatever the database authentication outcome, exactly one
matching log line is appended, the process does not terminate, the
listener state is untouched, and GET / is still served afterwards. -/
theorem db_outcome_logged_nonfatal :
    (∀ (s : ProcState) (o : DbOutcome), s.terminated = false → s.dbPending = true →
      (step s (.dbResult o)).1.log = s.log ++ [dbLogLine o] ∧
      (step s (.dbResult o)).1.terminated = false ∧
      (step s (.dbResult o)).1.listening = s.listening) ∧
    (∀ (env : String → Option String) (o : DbOutcome),
      (runTrace (initState env) [.dbResult o, .bindResult true, .request getRootReq]).2 =
        [rootResp]) := by
  constructor
  · intro s o h1 h2
    simp [step, h1, h2]
  · intro env o
    rfl

/-- Witness for claim C3 at a concrete failing outcome and a concrete
successful outcome. -/
theorem db_outcome_logged_nonfatal_witness :
    ((step (initState envEmpty) (.dbResult (.err ("db down")))).1.log =
        (initState envEmpty).log ++ [dbLogLine (.err ("db down"))] ∧
      (step (initState envEmpty) (.dbResult (.err ("db down")))).1.terminated = false ∧
      (step (initState envEmpty) (.dbResult (.err ("db down")))).1.listening =
        (initState envEmpty).listening) ∧
    (runTrace (initState envEmpty) [.dbResult .ok, .bindResult true, .request getRootReq]).2 =
      [rootResp] :=
  ⟨db_outcome_logged_nonfatal.1 (initState envEmpty) (.err ("db down")) rfl rfl,
   db_outcome_logged_nonfatal.2 envEmpty .ok⟩

/-- Claim C4: a bind failure terminates the process: no log, no
response, no further reaction to any event, and the program registers
no error handler anywhere. -/
theorem bind_failure_fatal :
    (∀ s : ProcState, s.terminated = false →
      (step s (.bindResult false)).1.terminated = true ∧
      (step s (.bindResult false)).1.log = s.log ∧
      (step s (.bindResult false)).2 = none) ∧
    (∀ (s : ProcState) (e : Event), s.terminated = true → step s e = (s, none)) ∧
    serverProgram.contains Instr.registerErrorHandler = false := by
  refine ⟨?_, ?_, by decide⟩
  · intro s h
    simp [step, h]
  · intro s e h
    simp [step, h]

/-- Witness for claim C4: a concrete bind failure right after bootstrap,
and a terminated process ignoring a concrete request. -/
theorem bind_failure_fatal_witness :
    ((step (initState envEmpty) (.bindResult false)).1.terminated = true ∧
      (step (initState envEmpty) (.bindResult false)).1.log = (initState envEmpty).log ∧
      (step (initState envEmpty) (.bindResult false)).2 = none) ∧
    step deadState (.request getRootReq) = (deadState, none) :=
  ⟨bind_failure_fatal.1 (initState envEmpty) rfl,
   bind_failure_fatal.2.1 deadState (.request getRootReq) rfl⟩

/-- Claim C5: the database check is initiated strictly before the
listen call in program order, yet there is an execution in which a
GET / request is served while the check is still pending, the check
resolving only afterwards. -/
theorem db_check_before_listen_completion_unordered :
    serverProgram.indexOf Instr.callDbAuthenticate < serverProgram.indexOf Instr.callListen ∧
    (runTrace (initState envEmpty) [.bindResult true]).1.dbPending = true ∧
    (step (runTrace (initState envEmpty) [.bindResult true]).1 (.request getRootReq)).2 =
      some rootResp ∧
    (step (runTrace (initState envEmpty) [.bindResult true]).1 (.request getRootReq)).1.dbPending
      = true ∧
    (step (step (runTrace (initState envEmpty) [.bindResult true]).1
        (.request getRootReq)).1 (.dbResult .ok)).1.dbPending = false :=
  ⟨by decide, rfl, rfl, rfl, rfl⟩

/-- Claim C6: a request with a JSON content type and a syntactically
invalid JSON body gets a client-error response with a status in the
400 range, and handling any request never changes the process state. -/
theorem bad_json_rejected (req : Request)
    (hct : hasJsonContentType req = true) (hbad : jsonParse req.body = none) :
    400 ≤ (appHandle req).status ∧ (appHandle req).status < 500 ∧
    ∀ s : ProcState, (step s (.request req)).1 = s := by
  have h : appHandle req = addCors badJsonResponse := by
    simp [appHandle, jsonMw, hct, hbad]
  rw [h]
  exact ⟨by decide, by decide, fun s => step_request_fst s req⟩

/-- Witness for claim C6 at a concrete malformed JSON request. -/
theorem bad_json_rejected_witness :
    400 ≤ (appHandle badJsonGetReq).status ∧ (appHandle badJsonGetReq).status < 500 ∧
    ∀ s : ProcState, (step s (.request badJsonGetReq)).1 = s :=
  bad_json_rejected badJsonGetReq rfl rfl

/-- Claim C7: every response carries the wildcard cross-origin-allow
header, which permits any origin whatsoever. -/
theorem cors_wildcard (req : Request) (origin : String) :
    permitsOrigin (appHandle req) origin := by
  unfold appHandle permitsOrigin
  split <;> exact ⟨"*", List.mem_cons_self _ _, Or.inl rfl⟩

/-- Claim C8, counterexample: a request to an unregistered method/path
carrying a JSON content type and a malformed body does not fall through
to the framework default not-found handling — the body-parsing
middleware rejects it with its 400 response first (it still matches no
program-defined route). -/
theorem other_path_not_always_notFound :
    (appHandle badJsonOtherReq).status = 400 ∧
    ¬(appHandle badJsonOtherReq = addCors (notFound badJsonOtherReq)) := by
  decide

/-- Claim C8, amended: the route table holds exactly the one route
GET /; any other method/path combination matches no program-defined
route and, when the body-parsing middleware passes it, falls through to
the framework default not-found handling. -/
theorem single_route_default_fallthrough (req : Request)
    (h : req.method ≠ "GET" ∨ req.path ≠ "/") :
    routes.length = 1 ∧
    routes.map (fun r => (r.method, r.path)) = [("GET", "/")] ∧
    dispatch routes req = none ∧
    ((hasJsonContentType req = false ∨ ∃ v, jsonParse req.body = some v) →
      appHandle req = addCors (notFound req)) :=
  ⟨rfl, rfl, dispatch_other req h, fun hok => appHandle_fallthrough req h hok⟩

/-- Witness for claim C8 at a concrete unregistered method/path. -/
theorem single_route_default_fallthrough_witness :
    routes.length = 1 ∧
    routes.map (fun r => (r.method, r.path)) = [("GET", "/")] ∧
    dispatch routes otherReq = none ∧
    ((hasJsonContentType otherReq = false ∨ ∃ v, jsonParse otherReq.body = some v) →
      appHandle otherReq = addCors (notFound otherReq)) :=
  single_route_default_fallthrough otherReq (Or.inl (by decide))

/-- Claim C9: two executions differing only in the database outcome
give the identical response to every request; the listener state and
liveness agree, and the logs differ only in the database log line. -/
theorem db_outcome_noninterference (env : String → Option String)
    (o1 o2 : DbOutcome) (req : Request) :
    (step (runTrace (initState env) [.bindResult true, .dbResult o1]).1 (.request req)).2 =
      (step (runTrace (initState env) [.bindResult true, .dbResult o2]).1 (.request req)).2 ∧
    (runTrace (initState env) [.bindResult true, .dbResult o1]).1.listening =
      (runTrace (initState env) [.bindResult true, .dbResult o2]).1.listening ∧
    (runTrace (initState env) [.bindResult true, .dbResult o1]).1.terminated = false ∧
    (runTrace (initState env) [.bindResult true, .dbResult o2]).1.terminated = false ∧
    (runTrace (initState env) [.bindResult true, .dbResult o1]).1.log =
      ["Server running on port " ++ portString (PORT env), dbLogLine o1] ∧
    (runTrace (initState env) [.bindResult true, .dbResult o2]).1.log =
      ["Server running on port " ++ portString (PORT env), dbLogLine o2] :=
  ⟨rfl, rfl, rfl, rfl, rfl, rfl⟩

/-- Claim C10: two GET / requests with a JSON content type differing
only in their (well-formed) JSON bodies get identical responses: the
parsed body is never read by the route handler. -/
theorem json_body_noninterference (req : Request) (b2 : String) (v1 v2 : JsonVal)
    (hm : req.method = "GET") (hp : req.path = "/")
    (_hct : hasJsonContentType req = true)
    (h1 : jsonParse req.body = some v1) (h2 : jsonParse b2 = some v2) :
    appHandle { req with body := b2 } = appHandle req := by
  have e1 : appHandle req = rootResp := appHandle_root req hm hp (Or.inr ⟨v1, h1⟩)
  have e2 : appHandle { req with body := b2 } = rootResp :=
    appHandle_root { req with body := b2 } hm hp (Or.inr ⟨v2, h2⟩)
  rw [e1, e2]

/-- Witness for claim C10 at two concrete well-formed JSON bodies. -/
theorem json_body_noninterference_witness :
    appHandle { validJsonGetReq with body := "[3]" } = appHandle validJsonGetReq :=
  json_body_noninterference validJsonGetReq ("[3]")
    (JsonVal.arr [JsonVal.num ("1"), JsonVal.num ("2")])
    (JsonVal.arr [JsonVal.num ("3")]) rfl rfl rfl rfl rfl
